import Mathlib

/-!
Verification of `erinyes.stress.memory_leak_assistant` (class
`MemoryLeakAssistant` and the module-level worker runner).

Shallow embedding conventions:
* Python floats (memory sizes, slack fractions) are modelled as exact
  rationals `ℚ`; all arithmetic in the source is comparisons, one
  multiplication and one division, so the idealised semantics is exact.
* The monitored process world is an abstract state `σ` together with an
  environment `Env σ` supplying the three effectful primitives the code
  uses: `psutil` memory sampling (`float(process.get_memory_info().rss)`),
  `gc.collect()`, and one invocation of the operation under test
  (`test_function()`, i.e. `function(*args)`).  Sampling is stateful
  (`σ → ℚ × σ`) so that two consecutive samples may differ, exactly as two
  `rss` reads of a live process may.
* Python exceptions are values of `PyError`; a call that can raise returns
  `Except PyError _` (or threads an `Option PyError`).
* Attribute lookup on `self` / on a fresh `MemoryLeakAssistant()` is
  modelled by membership in the list of attribute names that the class body
  actually defines, so that `AttributeError` on a missing method is visible.
-/

namespace Erinyes

/-- Payload of an `AssertionError` raised by the assistant.  The source
builds one of three messages: a caller-supplied `msg`, the default
`"Memory leak of {:.2%}"` of `assertMemoryUsage` (carrying the excess
fraction), or the default `"Memory leak of {:.2%} after {} iterations"` of
`assertReturnsMemory` (carrying the excess fraction and the 1-based
iteration count).  We keep the numeric payloads structured instead of
formatting them into a string. -/
inductive AssertMsg where
  | custom (m : String)
  | memoryLeak (excess : ℚ)
  | memoryLeakAfter (excess : ℚ) (iterationCount : ℕ)
  deriving DecidableEq, Repr

/-- The Python exceptions that can arise in this module: `AssertionError`
(with its message), `ZeroDivisionError` (float division by zero),
`AttributeError` (missing attribute, carrying the looked-up name),
`Queue.Empty` (raised by `queue.get_nowait()` on an empty queue), and a
catch-all for arbitrary exceptions raised by the operation under test. -/
inductive PyError where
  | assertionError (m : AssertMsg)
  | zeroDivisionError
  | attributeError (attr : String)
  | queueEmpty
  | other (desc : String)
  deriving DecidableEq, Repr

/-- Whether an exception is an `AssertionError` (the only class caught by
the `except AssertionError` handler of `assertReturnsMemory`). -/
def PyError.isAssertionError : PyError → Bool
  | .assertionError _ => true
  | _ => false

/-- Effectful primitives of the monitored world, over an abstract state
`σ`:
* `sample s` models `float(process.get_memory_info().rss)` — it returns the
  current resident size and the advanced world state;
* `gc` models `gc.collect()`;
* `runOp` models one call of `test_function()` (that is, `function()` or
  `function(*args)`): it may raise any exception, and updates the state. -/
structure Env (σ : Type) where
  sample : σ → ℚ × σ
  gc : σ → σ
  runOp : σ → Option PyError × σ

/-- Model of `MemoryLeakAssistant.assertMemoryUsage(process, usage, slack=0,
msg=None)` (source lines 17-45).  It takes one sample, computes
`hard_limit = usage * (1 + slack)`, and raises `AssertionError` when
`hard_limit < current_usage`.  On the default-message path the Python code
evaluates `(current_usage - usage) / usage`, which raises
`ZeroDivisionError` when `usage == 0`.  Returns the outcome and the world
state after the one sample. -/
def assertMemoryUsage {σ : Type} (env : Env σ) (usage slack : ℚ)
    (msg : Option String) (s : σ) : Except PyError Unit × σ :=
  let (current_usage, s1) := env.sample s
  let hard_limit := usage * (1 + slack)
  if hard_limit < current_usage then
    match msg with
    | some m => (Except.error (PyError.assertionError (AssertMsg.custom m)), s1)
    | none =>
        if usage = 0 then
          (Except.error PyError.zeroDivisionError, s1)
        else
          (Except.error (PyError.assertionError
            (AssertMsg.memoryLeak ((current_usage - usage) / usage))), s1)
  else (Except.ok (), s1)

/-- Outcome of the `for index in xrange(iterations)` loop of
`assertReturnsMemory`: either the loop ran to completion, or some iteration
raised.  `index` is the value of the (Python-scoped, leaked) loop variable
at the raise; `calls` counts the invocations of `test_function()` that were
started. -/
inductive LoopOut (σ : Type) where
  | done (s : σ) (calls : ℕ)
  | raised (e : PyError) (s : σ) (index : ℕ) (calls : ℕ)
  deriving DecidableEq, Repr

/-- The body of the `try` block of `assertReturnsMemory` (source lines
84-87): for each remaining iteration, call `test_function()` (whose
exceptions propagate out of the loop), `gc.collect()`, then
`self.assertMemoryUsage(process, baseline, slack=slack)` with the default
`msg=None`. -/
def armLoop {σ : Type} (env : Env σ) (baseline slack : ℚ) :
    ℕ → ℕ → σ → ℕ → LoopOut σ
  | 0, _, s, calls => LoopOut.done s calls
  | n + 1, index, s, calls =>
      match env.runOp s with
      | (some e, s1) => LoopOut.raised e s1 index (calls + 1)
      | (none, s1) =>
          let s2 := env.gc s1
          match assertMemoryUsage env baseline slack none s2 with
          | (Except.error e, s3) => LoopOut.raised e s3 index (calls + 1)
          | (Except.ok _, s3) => armLoop env baseline slack n (index + 1) s3 (calls + 1)

/-- Result of a run of `assertReturnsMemory`: the outcome, the final world
state, and how many invocations of the operation were started. -/
structure RunResult (σ : Type) where
  result : Except PyError Unit
  state : σ
  opCalls : ℕ

/-- Model of `MemoryLeakAssistant.assertReturnsMemory(function, args=None,
iterations=100, slack=0.0, msg=None)` (source lines 47-95).  It first runs
`gc.collect()` and takes the `baseline` sample, then runs the iteration
loop.  An `AssertionError` escaping the loop is caught; the handler first
computes `leak = (self._memory_usage(process) - baseline) / baseline` — a
fresh sample taken at abort time, and a `ZeroDivisionError` when
`baseline == 0` regardless of `msg` — and re-raises an `AssertionError`
whose default message carries `leak` and `index + 1`.  Any other exception
propagates unchanged. -/
def assertReturnsMemory {σ : Type} (env : Env σ) (iterations : ℕ)
    (slack : ℚ) (msg : Option String) (s0 : σ) : RunResult σ :=
  let s1 := env.gc s0
  match env.sample s1 with
  | (baseline, s2) =>
      match armLoop env baseline slack iterations 0 s2 0 with
      | LoopOut.done s calls => ⟨Except.ok (), s, calls⟩
      | LoopOut.raised e s index calls =>
          if e.isAssertionError then
            match env.sample s with
            | (current, s3) =>
                if baseline = 0 then
                  ⟨Except.error PyError.zeroDivisionError, s3, calls⟩
                else
                  let leak := (current - baseline) / baseline
                  match msg with
                  | none => ⟨Except.error (PyError.assertionError
                      (AssertMsg.memoryLeakAfter leak (index + 1))), s3, calls⟩
                  | some m => ⟨Except.error (PyError.assertionError
                      (AssertMsg.custom m)), s3, calls⟩
          else ⟨Except.error e, s, calls⟩

/-- A degenerate world with a single state whose memory reading is always
`v` and whose operation never raises and retains nothing.  Used to
instantiate theorems at concrete inputs. -/
def constEnv (v : ℚ) : Env Unit :=
  ⟨fun s => (v, s), id, fun s => (none, s)⟩

/-- A leaking world used to instantiate theorems at concrete inputs: the
state is a clock advanced by every sample and every operation call, and
the resident size grows by 10 with every clock tick, so consecutive
samples differ.  The operation never raises. -/
def leakEnv : Env ℕ :=
  ⟨fun n => (10 * (n + 1), n + 1), id, fun n => (none, n + 1)⟩

/-- The attribute names that the class body of `MemoryLeakAssistant`
defines (source lines 13-130): its five methods, in source order.  Note
that neither `_subprocess_runner` nor `assertNoMemoryLeak` is among them,
although both are referenced in the source. -/
def assistantAttrNames : List String :=
  ["assertMemoryUsage", "assertReturnsMemory", "assertDoesNotLeak",
   "_memory_usage", "_assertChildProcessFinishes"]

/-- Model of Python attribute lookup on `self` / on a fresh
`MemoryLeakAssistant()` instance: looking up a name that the class does not
define raises `AttributeError`. -/
def getattrAssistant (name : String) : Except PyError Unit :=
  if name ∈ assistantAttrNames then Except.ok ()
  else Except.error (PyError.attributeError name)

/-- Model of `MemoryLeakAssistant.assertDoesNotLeak(function, args=None,
slack=0.2, iterations=100)` (source lines 97-115).  Constructing the
`Process` evaluates `target=self._subprocess_runner()`, which begins with
an attribute lookup of `_subprocess_runner` on `self`; the class defines no
such attribute, so the lookup raises before the queue is used, before any
process is created, and before `function`, `args`, `iterations` or `slack`
play any role (they are therefore not parameters of the model).  The `ok`
branch of the lookup is unreachable (see `assistantAttrNames`); the
parent-side protocol the source intends to reach is modelled separately by
`_assertChildProcessFinishes`. -/
def assertDoesNotLeak : Except PyError Unit :=
  match getattrAssistant "_subprocess_runner" with
  | Except.error e => Except.error e
  | Except.ok _ => Except.ok ()

/-- A message placed on the `multiprocessing` queue by the worker: either
the `'FINISHED'` sentinel or a pickled exception object. -/
inductive QueueMsg where
  | finished
  | error (e : PyError)
  deriving DecidableEq, Repr

/-- Model of the module-level worker runner `_check_for_memory_leak(
function, iterations, slack, queue, args=None)` (source lines 133-143),
returning the queue contents it leaves behind.  Its `try` block calls
`assistant.assertNoMemoryLeak(...)`; the attribute lookup of
`assertNoMemoryLeak` on the fresh `MemoryLeakAssistant()` raises
`AttributeError` before `function`, `iterations`, `slack` or `args` are
consumed (so they are not parameters of the model), the `except Exception`
handler catches it and puts the error on the queue.  The `ok` branch of
the lookup is unreachable (see `assistantAttrNames`): it would run the
looked-up method and put `'FINISHED'` on success. -/
def _check_for_memory_leak : List QueueMsg :=
  match getattrAssistant "assertNoMemoryLeak" with
  | Except.error e => [QueueMsg.error e]
  | Except.ok _ => [QueueMsg.finished]

/-- Handle of the spawned worker process, as seen by the parent:
`started` records that `start()` was called, `alive` models what
`is_alive()` reports. -/
structure ProcHandle where
  started : Bool
  alive : Bool
  deriving DecidableEq, Repr

/-- Model of `Process.terminate()`: after it, the process is not running.
It is idempotent, and a no-op on a process that has already exited. -/
def ProcHandle.terminate (p : ProcHandle) : ProcHandle :=
  { p with alive := false }

/-- Observable outcome of `_assertChildProcessFinishes` in the parent:
returned normally, failed via `self.fail(outcome)` (which raises
`AssertionError` carrying `outcome` as the failure message), or let some
other exception propagate out of the method. -/
inductive FinOutcome where
  | passed
  | failed (outcome : QueueMsg)
  | raised (e : PyError)
  deriving DecidableEq, Repr

/-- Whether a `FinOutcome` is a `self.fail(...)` failure. -/
def FinOutcome.isFail : FinOutcome → Bool
  | .failed _ => true
  | _ => false

/-- Model of `MemoryLeakAssistant._assertChildProcessFinishes(process,
queue)` (source lines 120-130), parameterised by the queue contents the
worker left behind and the worker's handle.  The `try` block runs
`process.start()` then `process.join()` — after the join the worker has
exited — and then `outcome = queue.get_nowait()`, which raises
`Queue.Empty` when the queue is empty.  The `finally` block always runs
`process.terminate()`, including when the read raised.  After the
`try`/`finally`, `self.fail(outcome)` is called iff `outcome != 'FINISHED'`
(the exception that escaped the `try` block, if any, propagates instead).
Returns the outcome together with the final worker handle. -/
def _assertChildProcessFinishes (queueContents : List QueueMsg)
    (p : ProcHandle) : FinOutcome × ProcHandle :=
  let p1 : ProcHandle := { p with started := true, alive := false }
  match queueContents with
  | [] => (FinOutcome.raised PyError.queueEmpty, p1.terminate)
  | outcome :: _ =>
      if outcome = QueueMsg.finished then (FinOutcome.passed, p1.terminate)
      else (FinOutcome.failed outcome, p1.terminate)

/-! ## Helper lemmas -/

/-- Helper: when the sample is within the hard limit, `assertMemoryUsage`
returns normally, leaving the state advanced by the one sample. -/
theorem assertMemoryUsage_ok_of_le {σ : Type} (env : Env σ) (usage slack : ℚ)
    (msg : Option String) (s : σ)
    (h : (env.sample s).1 ≤ usage * (1 + slack)) :
    assertMemoryUsage env usage slack msg s = (Except.ok (), (env.sample s).2) := by
  rcases hs : env.sample s with ⟨cur, s1⟩
  rw [hs] at h
  simp only [assertMemoryUsage, hs]
  rw [if_neg (not_lt.mpr h)]

/-- Helper: when the sample strictly exceeds the hard limit and no custom
message was supplied, `assertMemoryUsage` with nonzero `usage` raises the
default `AssertionError` carrying `(sample - usage) / usage`. -/
theorem assertMemoryUsage_fail_default {σ : Type} (env : Env σ)
    (usage slack : ℚ) (s : σ) (hu : usage ≠ 0)
    (h : usage * (1 + slack) < (env.sample s).1) :
    assertMemoryUsage env usage slack none s =
      (Except.error (PyError.assertionError
        (AssertMsg.memoryLeak (((env.sample s).1 - usage) / usage))),
       (env.sample s).2) := by
  rcases hs : env.sample s with ⟨cur, s1⟩
  rw [hs] at h
  simp only [assertMemoryUsage, hs]
  rw [if_pos h, if_neg hu]

/-! ## Claims -/

/-- Claim C10: for every world, slack and message, `assertReturnsMemory`
called with `iterations = 0` returns normally without ever invoking the
operation: the loop body never executes, only the initial collection and
baseline sample occur, and no violation can be raised. -/
theorem assertReturnsMemory_zero_iterations {σ : Type} (env : Env σ)
    (slack : ℚ) (msg : Option String) (s0 : σ) :
    (assertReturnsMemory env 0 slack msg s0).result = Except.ok () ∧
    (assertReturnsMemory env 0 slack msg s0).opCalls = 0 := by
  rcases hs : env.sample (env.gc s0) with ⟨b, s2⟩
  simp [assertReturnsMemory, armLoop, hs]

/-- Claim C2 (code bug): every call of `assertDoesNotLeak` raises
`AttributeError` for `_subprocess_runner` while building the `Process`
argument list, because the class defines no attribute of that name; no
worker process is ever created, started or joined, and the channel is
never read. -/
theorem assertDoesNotLeak_attributeError :
    assertDoesNotLeak =
      Except.error (PyError.attributeError "_subprocess_runner") := by
  rfl

/-- Claim C3 (code bug): the worker runner `_check_for_memory_leak` never
executes the in-process repeated-call check: its `try` block looks up the
nonexistent method `assertNoMemoryLeak`, the resulting `AttributeError` is
caught by the `except Exception` handler, and the queue receives exactly
one message — that error, never the `'FINISHED'` sentinel. -/
theorem check_for_memory_leak_attributeError :
    _check_for_memory_leak =
      [QueueMsg.error (PyError.attributeError "assertNoMemoryLeak")] ∧
    _check_for_memory_leak.length = 1 := by
  constructor <;> rfl

/-- Claim C5: whatever the worker delivered (nothing, the sentinel, or a
failure description), `_assertChildProcessFinishes` runs
`process.terminate()` on every path — including when the channel read
raises — so once the call returns (normally, by failing, or by raising)
the worker process handle reports not running. -/
theorem childProcess_always_terminated (q : List QueueMsg) (p : ProcHandle) :
    ((_assertChildProcessFinishes q p).2).alive = false := by
  cases q with
  | nil => rfl
  | cons m rest =>
      by_cases hm : m = QueueMsg.finished <;>
        simp [_assertChildProcessFinishes, ProcHandle.terminate, hm]

/-- Claim C8: when the worker delivered a channel message, the parent
interprets it as follows: the `'FINISHED'` sentinel makes
`_assertChildProcessFinishes` return normally, and any failure description
makes it fail via `self.fail`, surfacing exactly that description as the
failure message. -/
theorem childProcess_outcome_interpretation (p : ProcHandle)
    (rest : List QueueMsg) (e : PyError) :
    (_assertChildProcessFinishes (QueueMsg.finished :: rest) p).1 =
      FinOutcome.passed ∧
    (_assertChildProcessFinishes (QueueMsg.error e :: rest) p).1 =
      FinOutcome.failed (QueueMsg.error e) := by
  constructor <;> simp [_assertChildProcessFinishes]

/-- Claim C4 counterexample: on an empty channel (worker exited without
writing), `_assertChildProcessFinishes` does not fail with a generic
message — it lets the channel-read `Queue.Empty` exception propagate, so
the outcome is a raised exception and not a `self.fail` failure. -/
theorem childProcess_empty_channel_cex :
    (_assertChildProcessFinishes [] ⟨false, false⟩).1 =
      FinOutcome.raised PyError.queueEmpty ∧
    ((_assertChildProcessFinishes [] ⟨false, false⟩).1).isFail = false := by
  constructor <;> rfl

/-- Claim C4 amended: when the worker exits without having written any
message, the non-blocking read raises the queue's `Empty` exception, which
propagates out of `_assertChildProcessFinishes` (no generic
non-normal-termination failure message is produced); the worker is still
terminated by the `finally` cleanup, and the parent call returns (does not
hang). -/
theorem childProcess_empty_channel_raises (p : ProcHandle) :
    (_assertChildProcessFinishes [] p).1 =
      FinOutcome.raised PyError.queueEmpty ∧
    ((_assertChildProcessFinishes [] p).2).alive = false := by
  constructor <;> rfl

/-- Claim C1 counterexample: at `usage = 0` with a positive sample and the
default message, the failing path of `assertMemoryUsage` evaluates
`(current_usage - usage) / usage` and raises `ZeroDivisionError`, which is
not an `AssertionError` and carries no excess fraction. -/
theorem assertMemoryUsage_zero_usage_cex :
    (assertMemoryUsage (constEnv 1) 0 0 none ()).1 =
      Except.error PyError.zeroDivisionError ∧
    PyError.zeroDivisionError.isAssertionError = false := by
  refine ⟨?_, rfl⟩
  norm_num [assertMemoryUsage, constEnv]

/-- Claim C1 amended: for every world, every nonzero `usage` and every
`slack ≥ 0`, `assertMemoryUsage` returns normally when the sample is
`≤ usage * (1 + slack)`, and raises an `AssertionError` whose default
message carries the excess fraction `(sample - usage) / usage` when the
sample is strictly greater.  (At `usage = 0` the failing default-message
path raises `ZeroDivisionError` instead.) -/
theorem assertMemoryUsage_passfail {σ : Type} (env : Env σ) (s : σ)
    (usage slack : ℚ) (hu : usage ≠ 0) (hs : 0 ≤ slack) :
    ((env.sample s).1 ≤ usage * (1 + slack) →
      (assertMemoryUsage env usage slack none s).1 = Except.ok ()) ∧
    (usage * (1 + slack) < (env.sample s).1 →
      (assertMemoryUsage env usage slack none s).1 =
        Except.error (PyError.assertionError
          (AssertMsg.memoryLeak (((env.sample s).1 - usage) / usage)))) := by
  constructor
  · intro h
    rw [assertMemoryUsage_ok_of_le env usage slack none s h]
  · intro h
    rw [assertMemoryUsage_fail_default env usage slack s hu h]

/-- Concrete instance of `assertMemoryUsage_passfail`: with sample 5,
usage 4, slack 0, the call fails carrying the excess fraction 1/4; with
sample 3 it passes. -/
theorem assertMemoryUsage_passfail_witness :
    (4 : ℚ) ≠ 0 ∧ (0 : ℚ) ≤ 0 ∧
    (assertMemoryUsage (constEnv 3) 4 0 none ()).1 = Except.ok () ∧
    (assertMemoryUsage (constEnv 5) 4 0 none ()).1 =
      Except.error (PyError.assertionError (AssertMsg.memoryLeak (1 / 4))) := by
  refine ⟨by norm_num, le_refl 0, ?_, ?_⟩
  · exact (assertMemoryUsage_passfail (constEnv 3) () 4 0 (by norm_num)
      (le_refl 0)).1 (by norm_num [constEnv])
  · have h := (assertMemoryUsage_passfail (constEnv 5) () 4 0 (by norm_num)
      (le_refl 0)).2 (by norm_num [constEnv])
    rw [h]
    norm_num [constEnv]

/-- Helper: when the operation never raises and every reachable sample is
within the hard limit derived from `b`, the iteration loop always runs to
completion. -/
theorem armLoop_done {σ : Type} (env : Env σ) (b slack : ℚ)
    (hop : ∀ s, (env.runOp s).1 = none)
    (hmem : ∀ s, (env.sample s).1 ≤ b * (1 + slack)) :
    ∀ (n index : ℕ) (s : σ) (calls : ℕ),
      ∃ s2 c2, armLoop env b slack n index s calls = LoopOut.done s2 c2 := by
  intro n
  induction n with
  | zero => exact fun index s calls => ⟨s, calls, rfl⟩
  | succ n ih =>
      intro index s calls
      have h1 := hop s
      rcases hr : env.runOp s with ⟨oe, s1⟩
      rw [hr] at h1
      simp only at h1
      subst h1
      have hok := assertMemoryUsage_ok_of_le env b slack none (env.gc s1) (hmem _)
      simp only [armLoop, hr, hok]
      exact ih (index + 1) _ (calls + 1)

/-- Claim C7: `assertReturnsMemory` collects garbage, takes the baseline,
then per iteration invokes the operation, collects garbage and checks the
bounded-usage assertion against the baseline; when the operation never
raises and no sample can exceed `baseline * (1 + slack)` — in particular
for an operation that retains no memory — the call returns normally, for
any number of iterations, slack and message. -/
theorem assertReturnsMemory_no_violation {σ : Type} (env : Env σ) (s0 : σ)
    (iterations : ℕ) (slack : ℚ) (msg : Option String)
    (hop : ∀ s, (env.runOp s).1 = none)
    (hmem : ∀ s, (env.sample s).1 ≤ (env.sample (env.gc s0)).1 * (1 + slack)) :
    (assertReturnsMemory env iterations slack msg s0).result = Except.ok () := by
  rcases hb : env.sample (env.gc s0) with ⟨b, s2⟩
  rw [hb] at hmem
  obtain ⟨sF, cF, hdone⟩ :=
    armLoop_done env b slack hop (fun s => hmem s) iterations 0 s2 0
  simp [assertReturnsMemory, hb, hdone]

/-- Concrete instance of `assertReturnsMemory_no_violation`: an operation
that retains nothing, constant resident size 7, five iterations, zero
slack — the check passes. -/
theorem assertReturnsMemory_no_violation_witness :
    (assertReturnsMemory (constEnv 7) 5 0 none ()).result = Except.ok () := by
  exact assertReturnsMemory_no_violation (constEnv 7) () 5 0 none
    (fun s => rfl) (fun s => by norm_num [constEnv])

/-- Claim C6: when the loop of `assertReturnsMemory` aborts on its first
`AssertionError` with the loop variable at `index`, the default failure
message reports the excess fraction computed from a fresh sample taken at
abort time — `((env.sample s).1 - baseline) / baseline` for the post-abort
state `s`, not the sample that triggered the violation — together with the
1-based count `index + 1` of iterations completed. -/
theorem assertReturnsMemory_abort_report {σ : Type} (env : Env σ) (s0 : σ)
    (iterations : ℕ) (slack baseline : ℚ) (s2 : σ)
    (hbs : env.sample (env.gc s0) = (baseline, s2))
    (e : PyError) (s : σ) (index calls : ℕ)
    (hloop : armLoop env baseline slack iterations 0 s2 0 =
      LoopOut.raised e s index calls)
    (he : e.isAssertionError = true) (hb : baseline ≠ 0) :
    (assertReturnsMemory env iterations slack none s0).result =
      Except.error (PyError.assertionError
        (AssertMsg.memoryLeakAfter
          (((env.sample s).1 - baseline) / baseline) (index + 1))) := by
  rcases hf : env.sample s with ⟨cur, s3⟩
  simp [assertReturnsMemory, hbs, hloop, he, hf, hb]

/-- Concrete instance of `assertReturnsMemory_abort_report`: in `leakEnv`
the baseline is 10, the violating sample is 30 (trigger fraction 2), and
the fresh sample taken at abort time is 40, so the reported fraction is 3
— demonstrably the abort-time sample, not the triggering one — after 1
iteration. -/
theorem assertReturnsMemory_abort_report_witness :
    (assertReturnsMemory leakEnv 1 0 none 0).result =
      Except.error (PyError.assertionError (AssertMsg.memoryLeakAfter 3 1)) := by
  have hbs : leakEnv.sample (leakEnv.gc 0) = (10, 1) := by
    norm_num [leakEnv]
  have hloop : armLoop leakEnv 10 0 1 0 1 0 =
      LoopOut.raised (PyError.assertionError (AssertMsg.memoryLeak 2)) 3 0 1 := by
    norm_num [armLoop, assertMemoryUsage, leakEnv]
  have h := assertReturnsMemory_abort_report leakEnv 0 1 0 10 1 hbs
    (PyError.assertionError (AssertMsg.memoryLeak 2)) 3 0 1 hloop rfl
    (by norm_num)
  have hfrac : ((leakEnv.sample 3).1 - 10) / 10 = (3 : ℚ) := by
    norm_num [leakEnv]
  rw [hfrac] at h
  exact h

/-- Claim C9: whenever a call of `assertMemoryUsage` or of
`assertReturnsMemory` that was given a non-`None` `msg` raises an
`AssertionError`, that error carries exactly the caller-supplied message;
the computed diagnostics (excess fraction, iteration count) are omitted
from it. -/
theorem custom_msg_verbatim {σ : Type} (env : Env σ) (s : σ)
    (usage slack : ℚ) (iterations : ℕ) (m : String) :
    (∀ am, (assertMemoryUsage env usage slack (some m) s).1 =
        Except.error (PyError.assertionError am) → am = AssertMsg.custom m) ∧
    (∀ am, (assertReturnsMemory env iterations slack (some m) s).result =
        Except.error (PyError.assertionError am) → am = AssertMsg.custom m) := by
  constructor
  · intro am h
    rcases hs : env.sample s with ⟨cur, s1⟩
    simp only [assertMemoryUsage, hs] at h
    split at h
    · simp only [Prod.fst, Except.error.injEq, PyError.assertionError.injEq] at h
      exact h.symm
    · exact absurd h (by simp)
  · intro am h
    rcases hb : env.sample (env.gc s) with ⟨b, s2⟩
    simp only [assertReturnsMemory, hb] at h
    rcases hl : armLoop env b slack iterations 0 s2 0 with ⟨sd, cd⟩ | ⟨e, sr, index, cr⟩
    · rw [hl] at h
      exact absurd h (by simp)
    · rw [hl] at h
      by_cases he : e.isAssertionError = true
      · rcases hf : env.sample sr with ⟨cur, s3⟩
        simp only [he, if_true, hf] at h
        by_cases hb0 : b = 0
        · rw [if_pos hb0] at h
          exact absurd h (by simp)
        · rw [if_neg hb0] at h
          simp only [Except.error.injEq, PyError.assertionError.injEq] at h
          exact h.symm
      · simp only [he] at h
        simp only [Bool.false_eq_true, if_false] at h
        simp only [Except.error.injEq] at h
        subst h
        simp [PyError.isAssertionError] at he

/-- Concrete instance of `custom_msg_verbatim`: with sample 5, usage 4,
slack 0 and caller message `"boom"`, the raised `AssertionError` carries
exactly `"boom"`. -/
theorem custom_msg_verbatim_witness :
    (assertMemoryUsage (constEnv 5) 4 0 (some "boom") ()).1 =
      Except.error (PyError.assertionError (AssertMsg.custom "boom")) ∧
    AssertMsg.custom "boom" = AssertMsg.custom "boom" := by
  have hev : (assertMemoryUsage (constEnv 5) 4 0 (some "boom") ()).1 =
      Except.error (PyError.assertionError (AssertMsg.custom "boom")) := by
    norm_num [assertMemoryUsage, constEnv]
  exact ⟨hev, (custom_msg_verbatim (constEnv 5) () 4 0 1 "boom").1
    (AssertMsg.custom "boom") hev⟩

end Erinyes
